import Mathlib

/-!
Verification of the elastic-driver repository's configuration-resolution and
query-construction core, shallowly embedded from the Python sources:
  config/indices.py, config/environments.py, utils/validation.py,
  utils/query_builder.py, utils/response_parser.py,
  mcp_types/primitives.py, tools/primitives/search.py,
  tools/primitives/aggregate.py, server.py.
Python dictionaries are embedded as ordered association lists (insertion
order preserved, as in CPython); `os.getenv` is an explicit parameter of
type `EnvVars`; the Elasticsearch transport is an explicit function
parameter; `datetime.utcnow()` / `datetime.now(timezone.utc)` readings are
explicit integer parameters counting microseconds since the Unix epoch.
-/

namespace Elastic

/-- JSON-like values, the embedding of the loosely-typed Python dicts that
flow between the query builder, the primitives and the transport.
Objects are ordered association lists (CPython dict insertion order). -/
inductive J where
  | null : J
  | bool : Bool → J
  | int : Int → J
  | rat : Rat → J
  | str : String → J
  | arr : List J → J
  | obj : List (String × J) → J

/-- Embedding of `dict.get(key)` on a `J.obj`; `none` for a missing key or a
non-object value. -/
def jGet (j : J) (key : String) : Option J :=
  match j with
  | J.obj l => l.lookup key
  | _ => none

/-- Embedding of `dict.get(key, default)`. -/
def jGetD (j : J) (key : String) (d : J) : J :=
  (jGet j key).getD d

/-- Python truthiness of an embedded value (used for `or` and `if x:`). -/
def jTruthy : J → Bool
  | J.null => false
  | J.bool b => b
  | J.int n => n != 0
  | J.rat q => q != 0
  | J.str s => s ≠ ""
  | J.arr l => !l.isEmpty
  | J.obj l => !l.isEmpty

/-- Process environment variables (`os.getenv`), as an explicit parameter. -/
def EnvVars : Type := String → Option String

/-- Python `str.upper()` (ASCII, as used on index-type tokens). -/
def pyUpper (s : String) : String :=
  String.mk (s.data.map Char.toUpper)

/-- Python `str.startswith(pre)`. -/
def pyStartswith (s pre : String) : Bool :=
  List.isPrefixOf pre.data s.data

/-! ## utils/validation.py -/

/-- Characters accepted by the pattern regex `[^a-zA-Z0-9\-_.*]` in
`validate_index_pattern` (a character is invalid iff it matches that class). -/
def allowedPatternChar (c : Char) : Bool :=
  c.isAlphanum || c = '-' || c = '_' || c = '.' || c = '*'

/-- Embedding of `validate_index_pattern` (utils/validation.py lines 9-29).
`Except.error` stands for the raised `ValueError`; the Python message for the
invalid-character case interpolates the offending characters, elided here. -/
def validate_index_pattern (pattern : String) : Except String Unit :=
  if pattern = "" then
    Except.error ("Index pattern cannot be empty")
  else if pyStartswith pattern ("_") then
    Except.error ("Index pattern cannot start with underscore")
  else
    let invalid_chars := pattern.data.filter (fun c => !allowedPatternChar c)
    if invalid_chars.isEmpty then Except.ok ()
    else Except.error ("Invalid characters in index pattern")

/-- Embedding of `clamp_value` (utils/validation.py lines 60-72):
`max(min_value, min(value, max_value))` on integers. -/
def clamp_value (value min_value max_value : Int) : Int :=
  max min_value (min value max_value)

/-- Embedding of `validate_size` (utils/validation.py lines 32-43). -/
def validate_size (size : Int) (max_size : Int) : Int :=
  clamp_value size 1 max_size

/-- Embedding of `validate_timeframe` (utils/validation.py lines 46-57). -/
def validate_timeframe (minutes : Int) (max_minutes : Int) : Int :=
  clamp_value minutes 1 max_minutes

/-! ## config/indices.py — the registry -/

/-- One entry of `INDEX_REGISTRY`: an index configuration dictionary.
`mappings` embeds the nested `{"level": {...}}` dictionary (an outer key to
an ordered value map); entries without a `"mappings"` key use `[]`. -/
structure IndexConfigData where
  pattern : String
  rollover : String
  retention : String
  fields : List (String × String)
  mappings : List (String × List (String × List String))
  default_size : Int
  max_size : Int
  timeout_ms : Int
deriving DecidableEq

/-- The shared production/staging level value map (config/indices.py). -/
def prodLevelMap : List (String × List String) :=
  [("ERROR", ["error", "ERROR", "E", "err", "ERR"]),
   ("WARNING", ["warn", "WARNING", "W", "warning", "WARN"]),
   ("INFO", ["info", "INFO", "I"]),
   ("DEBUG", ["debug", "DEBUG", "D"]),
   ("CRITICAL", ["critical", "CRITICAL", "C", "crit", "CRIT", "fatal", "FATAL"])]

/-- `INDEX_REGISTRY["production"]["app_logs"]` (config/indices.py 12-43). -/
def productionAppLogs : IndexConfigData where
  pattern := "app-logs-prod-*"
  rollover := "daily"
  retention := "30d"
  fields :=
    [("timestamp", "@timestamp"), ("level", "json.levelname"),
     ("message", "json.message"), ("pod", "json.hostname"),
     ("service", "json.service_name"), ("module", "json.module"),
     ("trace_id", "json.trace_id"), ("request_id", "json.request_id"),
     ("user_id", "json.user_id"), ("environment", "json.environment"),
     ("deployment", "ct_deployment"), ("namespace", "ct_feature"),
     ("application", "applicationName")]
  mappings := [("level", prodLevelMap)]
  default_size := 100
  max_size := 1000
  timeout_ms := 30000

/-- `INDEX_REGISTRY["production"]["infra_logs"]` (config/indices.py 44-65). -/
def productionInfraLogs : IndexConfigData where
  pattern := "infrastructure-prod-*"
  rollover := "daily"
  retention := "14d"
  fields :=
    [("timestamp", "@timestamp"), ("level", "level"), ("message", "message"),
     ("host", "host.name"), ("component", "component"),
     ("resource_type", "kubernetes.resource.type"),
     ("resource_name", "kubernetes.resource.name"),
     ("cpu_usage", "system.cpu.usage"), ("memory_usage", "system.memory.usage"),
     ("disk_usage", "system.disk.usage"),
     ("network_in", "system.network.in.bytes"),
     ("network_out", "system.network.out.bytes")]
  mappings := []
  default_size := 100
  max_size := 500
  timeout_ms := 30000

/-- `INDEX_REGISTRY["production"]["security_logs"]` (config/indices.py 66-83). -/
def productionSecurityLogs : IndexConfigData where
  pattern := "security-prod-*"
  rollover := "daily"
  retention := "90d"
  fields :=
    [("timestamp", "@timestamp"), ("event_type", "event.type"),
     ("action", "event.action"), ("outcome", "event.outcome"),
     ("user", "user.name"), ("source_ip", "source.ip"),
     ("target_resource", "resource.name"), ("risk_score", "risk.score")]
  mappings := []
  default_size := 100
  max_size := 500
  timeout_ms := 30000

/-- `INDEX_REGISTRY["production"]["audit_logs"]` (config/indices.py 84-102). -/
def productionAuditLogs : IndexConfigData where
  pattern := "audit-prod-*"
  rollover := "monthly"
  retention := "365d"
  fields :=
    [("timestamp", "@timestamp"), ("action", "event.action"),
     ("resource_type", "resource.type"), ("resource_id", "resource.id"),
     ("user", "user.name"), ("source_ip", "source.ip"),
     ("changes", "event.changes"), ("reason", "event.reason"),
     ("compliance_tags", "tags.compliance")]
  mappings := []
  default_size := 100
  max_size := 500
  timeout_ms := 30000

/-- `INDEX_REGISTRY["staging"]["app_logs"]` (config/indices.py 105-137). -/
def stagingAppLogs : IndexConfigData where
  pattern := "app-logs-staging-*"
  rollover := "daily"
  retention := "14d"
  fields := productionAppLogs.fields
  mappings := [("level", prodLevelMap)]
  default_size := 100
  max_size := 1000
  timeout_ms := 30000

/-- `INDEX_REGISTRY["development"]["app_logs"]` (config/indices.py 141-164). -/
def developmentAppLogs : IndexConfigData where
  pattern := "app-logs-dev-*"
  rollover := "weekly"
  retention := "7d"
  fields :=
    [("timestamp", "@timestamp"), ("level", "level"), ("message", "message"),
     ("pod", "hostname"), ("service", "service")]
  mappings :=
    [("level",
      [("ERROR", ["error", "ERROR"]), ("WARNING", ["warn", "WARNING"]),
       ("INFO", ["info", "INFO"]), ("DEBUG", ["debug", "DEBUG"])])]
  default_size := 50
  max_size := 200
  timeout_ms := 10000

/-- Embedding of the module-level `INDEX_REGISTRY` (config/indices.py 10-166). -/
def INDEX_REGISTRY : List (String × List (String × IndexConfigData)) :=
  [("production",
    [("app_logs", productionAppLogs), ("infra_logs", productionInfraLogs),
     ("security_logs", productionSecurityLogs),
     ("audit_logs", productionAuditLogs)]),
   ("staging", [("app_logs", stagingAppLogs)]),
   ("development", [("app_logs", developmentAppLogs)])]

/-- The registry lookup made by `get_index_config` before any override is
applied: `none` exactly when the Python code raises `KeyError` (an absent
environment, an environment whose dict is falsy, or an absent index type;
the `if not index_config` dict-falsiness test cannot fire on the structure
embedding because every stored config dict is non-empty). -/
def registryFind (environment index_type : String) : Option IndexConfigData :=
  match INDEX_REGISTRY.lookup environment with
  | none => none
  | some env_config =>
    if env_config.isEmpty then none
    else env_config.lookup index_type

/-- Embedding of `get_index_config` (config/indices.py 169-208).
`Except.error` stands for the raised `KeyError`. The Python `.copy()` makes
the override apply to a fresh dict; in this pure embedding the copy is the
value binding itself (the heap-instrumented model below settles the frame
claim). Note the source applies the explicit `override_pattern` first and
the `ELASTIC_<TYPE>_PATTERN` environment variable second, both guarded by
truthiness (`if override_pattern:` / `if env_pattern:`). -/
def get_index_config (envVars : EnvVars) (environment index_type : String)
    (override_pattern : Option String) : Except String IndexConfigData :=
  match INDEX_REGISTRY.lookup environment with
  | none => Except.error ("Unknown environment: " ++ environment)
  | some env_config =>
    if env_config.isEmpty then
      Except.error ("Unknown environment: " ++ environment)
    else
      match env_config.lookup index_type with
      | none =>
        Except.error ("Unknown index type: " ++ index_type ++
          " for environment: " ++ environment)
      | some index_config =>
        let config := index_config
        let config :=
          match override_pattern with
          | some p => if p = "" then config else { config with pattern := p }
          | none => config
        let config :=
          match envVars ("ELASTIC_" ++ pyUpper index_type ++ "_PATTERN") with
          | some p => if p = "" then config else { config with pattern := p }
          | none => config
        Except.ok config

/-- Embedding of `get_field_mapping` (config/indices.py 211-231): the
`except KeyError` branch returns `None`. -/
def get_field_mapping (envVars : EnvVars) (environment index_type field_name : String) :
    Option String :=
  match get_index_config envVars environment index_type none with
  | Except.error _ => none
  | Except.ok config => config.fields.lookup field_name

/-- Embedding of `get_level_mapping` (config/indices.py 234-255): the
`except KeyError` branch and every lookup miss return `[level]`. -/
def get_level_mapping (envVars : EnvVars) (environment index_type level : String) :
    List String :=
  match get_index_config envVars environment index_type none with
  | Except.error _ => [level]
  | Except.ok config =>
    match config.mappings.lookup ("level") with
    | none => [level]
    | some m => (m.lookup level).getD [level]

/-! ## config/environments.py -/

/-- Embedding of `get_current_environment` (config/environments.py 34-41). -/
def get_current_environment : String := "default"

/-! ## Heap-instrumented model of `get_index_config` for the frame claim

Python dicts are mutable heap objects; `index_config.copy()` allocates a
fresh dict and the override assignments mutate only that copy. To settle the
copy-on-read claim the function is re-embedded over an explicit heap: the
registry holds fixed addresses of its stored config dicts, `copy()`
allocates the next fresh address, and `config["pattern"] = ...` is a store
update at the copy's address. -/

/-- A heap of config dicts: the next fresh address and the store. -/
structure Heap where
  nextAddr : Nat
  store : Nat → IndexConfigData

/-- `INDEX_REGISTRY` with the stored config dicts replaced by their heap
addresses (same environments and index types as `INDEX_REGISTRY`). -/
def registryAddrs : List (String × List (String × Nat)) :=
  [("production",
    [("app_logs", 0), ("infra_logs", 1), ("security_logs", 2),
     ("audit_logs", 3)]),
   ("staging", [("app_logs", 4)]),
   ("development", [("app_logs", 5)])]

/-- Store update at one address. -/
def heapWrite (store : Nat → IndexConfigData) (a : Nat) (v : IndexConfigData) :
    Nat → IndexConfigData :=
  fun x => if x = a then v else store x

/-- Initial store holding the module-level registry dicts at addresses 0-5. -/
def initStore : Nat → IndexConfigData
  | 0 => productionAppLogs
  | 1 => productionInfraLogs
  | 2 => productionSecurityLogs
  | 3 => productionAuditLogs
  | 4 => stagingAppLogs
  | _ => developmentAppLogs

/-- The process-start heap: six registry dicts, next fresh address 6. -/
def initHeap : Heap := ⟨6, initStore⟩

/-- Heap-instrumented embedding of `get_index_config` (config/indices.py
169-208): `config = index_config.copy()` allocates `h.nextAddr` and copies
the stored dict there; each pattern override writes only at that fresh
address; the returned heap is the post-call dict heap. -/
def get_index_config_heap (h : Heap) (envVars : EnvVars)
    (environment index_type : String) (override_pattern : Option String) :
    (Except String IndexConfigData) × Heap :=
  match registryAddrs.lookup environment with
  | none => (Except.error ("Unknown environment: " ++ environment), h)
  | some env_config =>
    if env_config.isEmpty then
      (Except.error ("Unknown environment: " ++ environment), h)
    else
      match env_config.lookup index_type with
      | none =>
        (Except.error ("Unknown index type: " ++ index_type ++
          " for environment: " ++ environment), h)
      | some addr =>
        let a := h.nextAddr
        let st := heapWrite h.store a (h.store addr)
        let st :=
          match override_pattern with
          | some p => if p = "" then st else heapWrite st a { st a with pattern := p }
          | none => st
        let st :=
          match envVars ("ELASTIC_" ++ pyUpper index_type ++ "_PATTERN") with
          | some p => if p = "" then st else heapWrite st a { st a with pattern := p }
          | none => st
        (Except.ok (st a), ⟨a + 1, st⟩)

/-! ## utils/query_builder.py — time ranges

Timestamps are microseconds since the Unix epoch; `datetime.utcnow()` is the
explicit `now` parameter. `isoformat` below reproduces the serialization of
a naive `datetime` (`datetime.isoformat()`): `YYYY-MM-DDTHH:MM:SS`, with a
`.ffffff` microsecond suffix only when the microseconds are non-zero, and no
UTC-offset suffix (naive datetimes carry no `tzinfo`). -/

/-- Decimal digit character (argument below 10 by construction). -/
def digitChar (d : Nat) : Char :=
  if d = 0 then '0' else if d = 1 then '1' else if d = 2 then '2'
  else if d = 3 then '3' else if d = 4 then '4' else if d = 5 then '5'
  else if d = 6 then '6' else if d = 7 then '7' else if d = 8 then '8'
  else '9'

/-- Decimal rendering, fuel-structured so the kernel can evaluate it. -/
def natStrAux : Nat → Nat → List Char
  | 0, _ => []
  | fuel + 1, n =>
    if n < 10 then [digitChar n]
    else natStrAux fuel (n / 10) ++ [digitChar (n % 10)]

/-- Decimal rendering of a natural number (Python `str`). -/
def natStr (n : Nat) : List Char := natStrAux (n + 1) n

/-- Zero-padded decimal rendering (Python `%0wd`). -/
def padChars (w n : Nat) : List Char :=
  List.replicate (w - (natStr n).length) '0' ++ natStr n

/-- Proleptic-Gregorian civil date from days since 1970-01-01
(the standard era-based algorithm; valid for non-negative day counts). -/
def civilFromDays (days : Nat) : Nat × Nat × Nat :=
  let z := days + 719468
  let era := z / 146097
  let doe := z % 146097
  let yoe := (doe - doe / 1460 + doe / 36524 - doe / 146097) / 365
  let y := yoe + era * 400
  let doy := doe - (365 * yoe + yoe / 4 - yoe / 100)
  let mp := (5 * doy + 2) / 153
  let d := doy - (153 * mp + 2) / 5 + 1
  let m := if mp < 10 then mp + 3 else mp - 9
  (if m ≤ 2 then y + 1 else y, m, d)

/-- Characters of the naive `datetime.isoformat()` of a timestamp given in
microseconds since the epoch. -/
def isoChars (t : Nat) : List Char :=
  let micros := t % 1000000
  let totalSecs := t / 1000000
  let s := totalSecs % 60
  let totalMins := totalSecs / 60
  let mi := totalMins % 60
  let totalHours := totalMins / 60
  let h := totalHours % 24
  let days := totalHours / 24
  let ymd := civilFromDays days
  padChars 4 ymd.1 ++ '-' :: padChars 2 ymd.2.1 ++ '-' :: padChars 2 ymd.2.2 ++
    'T' :: padChars 2 h ++ ':' :: padChars 2 mi ++ ':' :: padChars 2 s ++
    (if micros = 0 then [] else '.' :: padChars 6 micros)

/-- Python `datetime.isoformat()` for the naive datetimes built from
`datetime.utcnow()` readings (non-negative timestamps). -/
def isoformat (t : Int) : String := String.mk (isoChars t.toNat)

/-- Microseconds in a minute (`timedelta(minutes=1)`). -/
def minuteMicros : Int := 60000000

/-- Embedding of `build_time_range_query` (utils/query_builder.py 9-37).
When `minutes_ago` is given the bounds are recomputed as
`end = now`, `start = end - timedelta(minutes=minutes_ago)`; the `if start:`
/ `if end:` truthiness tests hold exactly for non-`None` datetimes. -/
def build_time_range_query (field : String) (start end_ : Option Int)
    (minutes_ago : Option Int) (now : Int) : J :=
  let se : Option Int × Option Int :=
    match minutes_ago with
    | some m => (some (now - m * minuteMicros), some now)
    | none => (start, end_)
  let range_query : List (String × J) :=
    (match se.1 with
     | some s => [("gte", J.str (isoformat s))]
     | none => []) ++
    (match se.2 with
     | some e => [("lte", J.str (isoformat e))]
     | none => [])
  J.obj [("range", J.obj [(field, J.obj range_query)])]

/-- The full character alphabet a naive isoformat string draws from. -/
def isoAlphabet : List Char :=
  ['0', '1', '2', '3', '4', '5', '6', '7', '8', '9', '-', ':', 'T', '.']

/-- True when a serialized timestamp carries an explicit UTC-offset marker
(a `+HH:MM` suffix or a trailing `Z`). -/
def hasOffsetMarker (s : String) : Bool :=
  s.data.any (fun c => c = '+' || c = 'Z')


/-- The bound keys present in a built range filter for a field. -/
def rangeBoundKeys (j : J) (field : String) : List String :=
  match jGet j ("range") with
  | some r =>
    match jGet r field with
    | some (J.obj l) => l.map Prod.fst
    | _ => []
  | none => []


/-! ## utils/query_builder.py — term, match, bool -/

/-- Python `isinstance(value, str)` on an embedded value. -/
def isStrJ : J → Bool
  | J.str _ => true
  | _ => false

/-- Embedding of `build_term_query` (utils/query_builder.py 40-59). -/
def build_term_query (field : String) (value : J) (use_keyword : Bool) : J :=
  let field2 := if use_keyword && isStrJ value then field ++ ".keyword" else field
  J.obj [("term", J.obj [(field2, value)])]

/-- Embedding of `build_match_query` (utils/query_builder.py 62-84); the
`if fuzziness:` truthiness test holds for non-`None`, non-empty strings. -/
def build_match_query (field value operator : String) (fuzziness : Option String) : J :=
  let query := [("query", J.str value), ("operator", J.str operator)]
  let query :=
    match fuzziness with
    | some fz => if fz = "" then query else query ++ [("fuzziness", J.str fz)]
    | none => query
  J.obj [("match", J.obj [(field, J.obj query)])]

/-- Serialization of a `minimum_should_match` value (`Union[int, str]`). -/
def msmToJ : Int ⊕ String → J
  | Sum.inl n => J.int n
  | Sum.inr s => J.str s

/-- Embedding of `build_bool_query` (utils/query_builder.py 87-120). Each
`if must:` truthiness guard holds exactly for a supplied non-empty list; the
`minimum_should_match is not None` guard holds exactly for a supplied value. -/
def build_bool_query (must must_not should filter : Option (List J))
    (minimum_should_match : Option (Int ⊕ String)) : J :=
  let bool_query : List (String × J) := []
  let bool_query := bool_query ++
    (match must with
     | some l => if l.isEmpty then [] else [("must", J.arr l)]
     | none => [])
  let bool_query := bool_query ++
    (match must_not with
     | some l => if l.isEmpty then [] else [("must_not", J.arr l)]
     | none => [])
  let bool_query := bool_query ++
    (match should with
     | some l => if l.isEmpty then [] else [("should", J.arr l)]
     | none => [])
  let bool_query := bool_query ++
    (match filter with
     | some l => if l.isEmpty then [] else [("filter", J.arr l)]
     | none => [])
  let bool_query := bool_query ++
    (match minimum_should_match with
     | some v => [("minimum_should_match", msmToJ v)]
     | none => [])
  J.obj [("bool", J.obj bool_query)]

/-- The clause association list nested under `"bool"` in a built bool query. -/
def boolClauses (j : J) : List (String × J) :=
  match j with
  | J.obj [("bool", J.obj l)] => l
  | _ => []


/-! ## mcp_types/primitives.py and tools/primitives/{search,aggregate}.py

The Elasticsearch client is an explicit `Transport` parameter taking the
index, the request body, and the optional scroll argument; each primitive
result is paired with the number of transport invocations it performed. -/

/-- Embedding of the `ElasticQuery` dataclass (mcp_types/primitives.py 31-42).
`source` stands for `_source` and `track_total_hits` for the loosely-typed
`Union[bool, int]` field; both are embedded values. -/
structure ElasticQuery where
  index_pattern : String
  query : J
  size : Int
  from_ : Int
  sort : Option (List J)
  fields : Option (List String)
  source : J
  highlight : Option J
  track_total_hits : J

/-- Embedding of `ElasticQuery.to_dict` (mcp_types/primitives.py 44-63):
`sort`/`fields`/`highlight` are emitted under Python truthiness, `_source`
and `track_total_hits` only when not identically `True`. -/
def ElasticQuery.to_dict (q : ElasticQuery) : J :=
  let body : List (String × J) :=
    [("query", q.query), ("size", J.int q.size), ("from", J.int q.from_)]
  let body := body ++
    (match q.sort with
     | some s => if s.isEmpty then [] else [("sort", J.arr s)]
     | none => [])
  let body := body ++
    (match q.fields with
     | some fs => if fs.isEmpty then [] else [("fields", J.arr (fs.map J.str))]
     | none => [])
  let body := body ++
    (match q.source with
     | J.bool true => []
     | v => [("_source", v)])
  let body := body ++
    (match q.highlight with
     | some h => if jTruthy h then [("highlight", h)] else []
     | none => [])
  let body := body ++
    (match q.track_total_hits with
     | J.bool true => []
     | v => [("track_total_hits", v)])
  J.obj body

/-- Embedding of `ElasticResponse.from_dict` (mcp_types/primitives.py 66-91):
the dataclass fields, with `total` normalized from either a bare value or a
`{value, relation}` dict. -/
structure ElasticResponse where
  took : J
  timed_out : J
  total : J
  hits : List J
  aggregations : Option J
  scroll_id : Option J

/-- Embedding of the `ElasticResponse.from_dict` classmethod. -/
def ElasticResponse.from_dict (data : J) : ElasticResponse :=
  let hits_data := jGetD data ("hits") (J.obj [])
  let total0 := jGetD hits_data ("total") (J.obj [])
  let total :=
    match total0 with
    | J.obj l => jGetD (J.obj l) ("value") (J.int 0)
    | v => v
  { took := jGetD data ("took") (J.int 0)
    timed_out := jGetD data ("timed_out") (J.bool false)
    total := total
    hits :=
      match jGetD hits_data ("hits") (J.arr []) with
      | J.arr l => l
      | _ => []
    aggregations := jGet data ("aggregations")
    scroll_id := jGet data ("_scroll_id") }

/-- Embedding of the `AggregationQuery` dataclass (mcp_types/primitives.py 94-108). -/
structure AggregationQuery where
  index_pattern : String
  query : J
  aggregations : J
  size : Int

/-- Embedding of `AggregationQuery.to_dict`. -/
def AggregationQuery.to_dict (q : AggregationQuery) : J :=
  J.obj [("query", q.query), ("aggs", q.aggregations), ("size", J.int q.size)]

/-- Embedding of the `AggregationResponse` dataclass (mcp_types/primitives.py 111-125). -/
structure AggregationResponse where
  took : J
  timed_out : J
  aggregations : J

/-- Embedding of `AggregationResponse.from_dict`. -/
def AggregationResponse.from_dict (data : J) : AggregationResponse where
  took := jGetD data ("took") (J.int 0)
  timed_out := jGetD data ("timed_out") (J.bool false)
  aggregations := jGetD data ("aggregations") (J.obj [])

/-- The Elasticsearch client call `es.search(index=..., body=..., scroll=?)`:
index pattern, request body, optional scroll argument. -/
def Transport : Type := String → J → Option String → Except String J

/-- Embedding of `search_elastic_logs` (tools/primitives/search.py 13-90),
returning the result together with the number of transport invocations.
Validation failure returns before any transport call; a transport failure is
wrapped as `Elasticsearch query failed: <cause>`. The `if scroll:`
truthiness test passes the scroll argument only when non-empty. -/
def search_elastic_logs (transport : Transport) (index_pattern : String)
    (query : J) (size from_ : Int) (sort : Option (List J))
    (fields : Option (List String)) (source : J) (highlight : Option J)
    (track_total_hits : J) (scroll : Option String) :
    Except String ElasticResponse × Nat :=
  match validate_index_pattern index_pattern with
  | Except.error e => (Except.error e, 0)
  | Except.ok _ =>
    let size := clamp_value size 1 10000
    let from_ := max 0 from_
    let elastic_query : ElasticQuery :=
      ⟨index_pattern, query, size, from_, sort, fields, source, highlight,
        track_total_hits⟩
    let body := elastic_query.to_dict
    let scrollArg :=
      match scroll with
      | some s => if s = "" then none else some s
      | none => none
    match transport index_pattern body scrollArg with
    | Except.ok response => (Except.ok (ElasticResponse.from_dict response), 1)
    | Except.error e => (Except.error ("Elasticsearch query failed: " ++ e), 1)

/-- Embedding of `aggregate_elastic_data` (tools/primitives/aggregate.py
12-56), instrumented like `search_elastic_logs`. -/
def aggregate_elastic_data (transport : Transport) (index_pattern : String)
    (query aggregations : J) (size : Int) :
    Except String AggregationResponse × Nat :=
  match validate_index_pattern index_pattern with
  | Except.error e => (Except.error e, 0)
  | Except.ok _ =>
    let agg_query : AggregationQuery := ⟨index_pattern, query, aggregations, size⟩
    match transport index_pattern agg_query.to_dict none with
    | Except.ok response => (Except.ok (AggregationResponse.from_dict response), 1)
    | Except.error e =>
      (Except.error ("Elasticsearch aggregation failed: " ++ e), 1)

/-- The spec's rejection condition for an index pattern, stated directly:
empty, beginning with an underscore, or containing a character outside
{alphanumeric, hyphen, underscore, dot, asterisk}. -/
def specRejected (p : String) : Prop :=
  p = "" ∨ p.data.head? = some '_' ∨
    ∃ c ∈ p.data,
      ¬(c.isAlphanum = true ∨ c = '-' ∨ c = '_' ∨ c = '.' ∨ c = '*')


/-! ## utils/response_parser.py -/

/-- Embedding of `extract_bucket_values` (utils/response_parser.py 34-49):
`[bucket.get(value_field) for bucket in buckets if value_field in bucket]`. -/
def extract_bucket_values (aggregation : J) (value_field : String) : List J :=
  let buckets :=
    match jGetD aggregation ("buckets") (J.arr []) with
    | J.arr l => l
    | _ => []
  buckets.filterMap (fun bucket => jGet bucket value_field)

/-! ## server.py — domain wrapper tools -/

/-- The physical field name used where the source interpolates a possibly
absent mapping; for every environment accepted by `get_index_config` the
lookups below hit mapped fields, so the `none` branch (Python would use the
`None` object) is unreachable on those paths. -/
def optField : Option String → String
  | some s => s
  | none => "None"

/-- The parsed `AppLog` record (mcp_types/domain.py), restricted to the
fields `search_app_logs` re-emits; the log-to-struct parser itself is an
external collaborator and is taken as a function parameter. -/
structure AppLog where
  timestamp_iso : String
  level : String
  message : String
  pod : String
  service : String
  module : J
  trace_id : J
  request_id : J
  environment : J
  deployment : J
  namespace_ : J

/-- The normalized entry `search_app_logs` builds from a parsed log
(server.py 269-281). -/
def appLogEntry (a : AppLog) : J :=
  J.obj [("timestamp", J.str a.timestamp_iso), ("level", J.str a.level),
    ("message", J.str a.message), ("pod", J.str a.pod),
    ("service", J.str a.service), ("module", a.module),
    ("trace_id", a.trace_id), ("request_id", a.request_id),
    ("environment", a.environment), ("deployment", a.deployment),
    ("namespace", a.namespace_)]

/-- Embedding of `search_app_logs` (server.py 160-286): resolves the
environment (defaulting to `get_current_environment()`), clamps inputs,
looks up the index config, assembles the bool query from the optional
filters, searches, and maps parse-failing hits away (`except: continue`).
Each optional filter guard is Python truthiness (`if pod_name:`). -/
def search_app_logs (envVars : EnvVars) (τ : Transport)
    (fromElastic : J → Except String AppLog)
    (pod_name service_name level message_filter : Option String)
    (timeframe_minutes limit : Int) (environment : Option String)
    (now : Int) : Except String (List J) × Nat :=
  let environment :=
    match environment with
    | some e => e
    | none => get_current_environment
  let timeframe_minutes := validate_timeframe timeframe_minutes 1440
  let limit := validate_size limit 1000
  match get_index_config envVars environment ("app_logs") none with
  | Except.error e => (Except.error e, 0)
  | Except.ok index_config =>
    let index_pattern := index_config.pattern
    let timestamp_field :=
      optField (get_field_mapping envVars environment ("app_logs") ("timestamp"))
    let must_filters :=
      [build_time_range_query timestamp_field none none (some timeframe_minutes) now]
    let must_filters := must_filters ++
      (match pod_name with
       | some pn =>
         if pn = "" then []
         else
           let pod_field :=
             optField (get_field_mapping envVars environment ("app_logs") ("pod"))
           [J.obj [("bool", J.obj
             [("should", J.arr
                [J.obj [("term", J.obj [(pod_field ++ ".keyword", J.str pn)])],
                 J.obj [("term", J.obj [(pod_field, J.str pn)])]]),
              ("minimum_should_match", J.int 1)])]]
       | none => [])
    let must_filters := must_filters ++
      (match service_name with
       | some sn =>
         if sn = "" then []
         else
           let service_field :=
             optField (get_field_mapping envVars environment ("app_logs") ("service"))
           [J.obj [("term", J.obj [(service_field ++ ".keyword", J.str sn)])]]
       | none => [])
    let must_filters := must_filters ++
      (match level with
       | some lv =>
         if lv = "" then []
         else
           let level_field :=
             optField (get_field_mapping envVars environment ("app_logs") ("level"))
           let level_values :=
             get_level_mapping envVars environment ("app_logs") (pyUpper lv)
           match level_values with
           | [v] => [J.obj [("term", J.obj [(level_field ++ ".keyword", J.str v)])]]
           | vs =>
             [J.obj [("terms", J.obj
               [(level_field ++ ".keyword", J.arr (vs.map J.str))])]]
       | none => [])
    let must_filters := must_filters ++
      (match message_filter with
       | some mf =>
         if mf = "" then []
         else
           let message_field :=
             optField (get_field_mapping envVars environment ("app_logs") ("message"))
           [build_match_query message_field mf ("or") none]
       | none => [])
    let query := build_bool_query (some must_filters) none none none none
    let sort := [J.obj [(timestamp_field, J.obj [("order", J.str "desc")])]]
    let res := search_elastic_logs τ index_pattern query limit 0 (some sort)
      none (J.bool true) none (J.bool true) none
    match res.1 with
    | Except.error e => (Except.error e, res.2)
    | Except.ok r =>
      let results := r.hits.filterMap (fun hit =>
        match fromElastic hit with
        | Except.ok app_log => some (appLogEntry app_log)
        | Except.error _ => none)
      (Except.ok results, res.2)

/-- Embedding of `list_active_pods` (server.py 289-343). -/
def list_active_pods (envVars : EnvVars) (τ : Transport)
    (timeframe_minutes : Int) (environment : Option String) (now : Int) :
    Except String (List String) × Nat :=
  let environment :=
    match environment with
    | some e => e
    | none => get_current_environment
  let timeframe_minutes := validate_timeframe timeframe_minutes 1440
  match get_index_config envVars environment ("app_logs") none with
  | Except.error e => (Except.error e, 0)
  | Except.ok index_config =>
    let index_pattern := index_config.pattern
    let timestamp_field :=
      optField (get_field_mapping envVars environment ("app_logs") ("timestamp"))
    let pod_field :=
      optField (get_field_mapping envVars environment ("app_logs") ("pod"))
    let query :=
      build_time_range_query timestamp_field none none (some timeframe_minutes) now
    let aggregations := J.obj [("pods", J.obj [("terms", J.obj
      [("field", J.str (pod_field ++ ".keyword")), ("size", J.int 1000)])])]
    let res := aggregate_elastic_data τ index_pattern query aggregations 0
    match res.1 with
    | Except.error e => (Except.error e, res.2)
    | Except.ok r =>
      let pods := extract_bucket_values (jGetD r.aggregations ("pods") (J.obj []))
        ("key")
      (Except.ok (pods.filterMap (fun p =>
        match p with
        | J.str s => some s
        | _ => none)), res.2)

/-! ## server.py — `fetch_user_logs` (the user-activity flow) -/

/-- Serialization of an aware UTC datetime (`datetime.now(timezone.utc)` or
a `fromisoformat` result carrying `+00:00`): naive isoformat plus the
explicit UTC offset suffix. -/
def isoAware (t : Int) : String := isoformat t ++ "+00:00"

/-- Python `str.replace(old, new)` on character lists, fuel-structured
(non-overlapping, left to right; only ever called with a non-empty `old`). -/
def replaceAux : Nat → List Char → List Char → List Char → List Char
  | 0, _, _, _ => []
  | fuel + 1, l, old, new =>
    match l with
    | [] => []
    | c :: rest =>
      if List.isPrefixOf old l then
        new ++ replaceAux fuel (l.drop old.length) old new
      else c :: replaceAux fuel rest old new

/-- Python `str.replace`. -/
def pyReplace (s old new : String) : String :=
  String.mk (replaceAux (s.data.length + 1) s.data old.data new.data)

/-- Python `a or b` on embedded values. -/
def pyOr (a b : J) : J := if jTruthy a then a else b

/-- Python `str(x)` as interpolated into the last-activity insight; the
interpolated value is the hit's `@timestamp`, a string in practice. -/
def jToPyStr : J → String
  | J.null => "None"
  | J.bool true => "True"
  | J.bool false => "False"
  | J.int n => toString n
  | J.rat q => toString q
  | J.str s => s
  | J.arr _ => "<list>"
  | J.obj _ => "<dict>"

/-- The user-identity filter of `fetch_user_logs` (server.py 483-491): the
user may appear under the numeric mobile field or the string web field. -/
def user_query (user_id : Int) : J :=
  J.obj [("bool", J.obj
    [("should", J.arr
      [J.obj [("term", J.obj [("json.mobile_user_id", J.int user_id)])],
       J.obj [("term", J.obj [("json.user_id.keyword", J.str (toString user_id))])]]),
     ("minimum_should_match", J.int 1)])]

/-- The time filter of `fetch_user_logs` (server.py 494-501), over aware
UTC datetimes. -/
def time_filter (startT endT : Int) : J :=
  J.obj [("range", J.obj [("@timestamp", J.obj
    [("gte", J.str (isoAware startT)), ("lte", J.str (isoAware endT))])])]

/-- The error-branch query of `fetch_user_logs` (server.py 504-512). -/
def error_query (user_id startT endT : Int) : J :=
  J.obj [("bool", J.obj [("must", J.arr
    [user_query user_id, time_filter startT endT,
     J.obj [("term", J.obj [("json.levelname.keyword", J.str "ERROR")])]])])]

/-- The slow-request-branch query of `fetch_user_logs` (server.py 532-540);
the threshold is modelled as a rational. -/
def slow_query (user_id startT endT : Int) (threshold : Rat) : J :=
  J.obj [("bool", J.obj [("must", J.arr
    [user_query user_id, time_filter startT endT,
     J.obj [("range", J.obj
       [("json.extra.request_time", J.obj [("gt", J.rat threshold)])])]])])]

/-- Sort by `@timestamp` descending. -/
def tsSortDesc : List J := [J.obj [("@timestamp", J.obj [("order", J.str "desc")])]]

/-- Sort by `json.extra.request_time` descending. -/
def requestTimeSortDesc : List J :=
  [J.obj [("json.extra.request_time", J.obj [("order", J.str "desc")])]]

/-- Time-range resolution of `fetch_user_logs` (server.py 468-480):
`datetime.fromisoformat` (external library) is the `parseIso` parameter; a
parse failure falls back to `now - timeframe`. -/
def resolveTimes (parseIso : String → Option Int) (start_time : Option String)
    (timeframe_minutes : Int) (now : Int) : Int × Int :=
  match start_time with
  | some st =>
    match parseIso (pyReplace st ("Z") ("+00:00")) with
    | some t => (t, t + timeframe_minutes * minuteMicros)
    | none => (now - timeframe_minutes * minuteMicros, now)
  | none => (now - timeframe_minutes * minuteMicros, now)

/-- Embedding of the nested `format_log` (server.py 574-595). -/
def format_log (hit : J) : J :=
  let source := jGetD hit ("_source") (J.obj [])
  let json_data := jGetD source ("json") (J.obj [])
  let formatted : List (String × J) :=
    [("timestamp", jGetD source ("@timestamp") J.null),
     ("index", jGetD hit ("_index") J.null),
     ("message", jGetD json_data ("message") (J.str "")),
     ("level", jGetD json_data ("levelname") (J.str "")),
     ("service", jGetD json_data ("service_name") (J.str "")),
     ("hostname", jGetD json_data ("hostname") (J.str "")),
     ("user_id", pyOr (jGetD json_data ("user_id") J.null)
        (jGetD json_data ("mobile_user_id") J.null))]
  let formatted := formatted ++
    (match jGet json_data ("extra") with
     | some extra =>
       match jGet extra ("request_time") with
       | some rt =>
         [("request_time", rt),
          ("method", jGetD extra ("method") (J.str "")),
          ("url", jGetD extra ("url") (J.str "")),
          ("status_code", jGetD extra ("status_code") (J.str ""))]
       | none => []
     | none => [])
  J.obj formatted

/-- One branch of `fetch_user_logs`: the try/except around a
`search_elastic_logs` call against `app-logs*`, degrading a raised failure
to an empty hit list (server.py 514-571). -/
def branchHits (τ : Transport) (q : J) (size : Int) (sort : List J) : List J :=
  match (search_elastic_logs τ ("app-logs*") q size 0 (some sort) none
      (J.bool true) none (J.bool true) none).1 with
  | Except.ok r => r.hits
  | Except.error _ => []

/-- The result record of `fetch_user_logs` (server.py 635-640). -/
structure UserLogsResult where
  summary : J
  error_logs : List J
  slow_requests : List J
  most_recent_log : Option J

/-- Embedding of `fetch_user_logs` (server.py 429-640). The `environment`
parameter is resolved but unused by the source (the index pattern is the
hard-coded `app-logs*`); `print` logging is a no-op here; the float
threshold is modelled as a rational (`max(0.1, ...)` as `max (1/10)`). -/
def fetch_user_logs (τ : Transport) (parseIso : String → Option Int)
    (user_id timeframe_minutes : Int) (slow_request_threshold : Rat)
    (limit : Int) (environment : Option String) (start_time : Option String)
    (now : Int) : UserLogsResult :=
  let _environment :=
    match environment with
    | some e => e
    | none => get_current_environment
  let timeframe_minutes := max 1 (min timeframe_minutes 1440)
  let limit := max 1 (min limit 1000)
  let slow_request_threshold := max (1 / 10 : Rat) slow_request_threshold
  let se := resolveTimes parseIso start_time timeframe_minutes now
  let start_time_dt := se.1
  let end_time := se.2
  let error_logs := branchHits τ (error_query user_id start_time_dt end_time)
    limit tsSortDesc
  let slow_requests := branchHits τ
    (slow_query user_id start_time_dt end_time slow_request_threshold)
    limit requestTimeSortDesc
  let recent_logs := branchHits τ (user_query user_id) 1 tsSortDesc
  let formatted_errors := error_logs.map format_log
  let formatted_slow := slow_requests.map format_log
  let formatted_recent := recent_logs.map format_log
  let insights : List String :=
    (if formatted_recent.length = 0 then
      ["❌ No logs found for this user - verify user ID or field mapping"]
     else
      ["✅ User found - last activity: " ++
        jToPyStr (jGetD (formatted_recent.headD (J.obj [])) ("timestamp") (J.str ""))] ++
      (if formatted_errors.length = 0 ∧ formatted_slow.length = 0 then
        ["ℹ️ No errors/slow requests in the specified timeframe"]
       else [])) ++
    (if formatted_errors.length > 10 then
      ["⚠️ High error count (" ++ toString formatted_errors.length ++
        ") - user may be experiencing issues"]
     else []) ++
    (if formatted_slow.length > 5 then
      ["⚠️ Multiple slow requests (" ++ toString formatted_slow.length ++
        ") - performance issues detected"]
     else [])
  let summary := J.obj
    ([("user_id", J.int user_id),
      ("timeframe_minutes", J.int timeframe_minutes),
      ("search_period", J.obj
        [("start", J.str (isoAware start_time_dt)),
         ("end", J.str (isoAware end_time))]),
      ("total_errors", J.int formatted_errors.length),
      ("total_slow_requests", J.int formatted_slow.length),
      ("has_recent_activity", J.bool (decide (formatted_recent.length > 0))),
      ("slow_request_threshold", J.rat slow_request_threshold),
      ("max_results_per_type", J.int limit)] ++
     [("insights", J.arr (insights.map J.str))])
  { summary := summary
    error_logs := formatted_errors
    slow_requests := formatted_slow
    most_recent_log := formatted_recent.head? }

/-- The request body a `fetch_user_logs` branch hands the transport
(the `ElasticQuery` built by `search_elastic_logs` for `app-logs*` with
offset 0, default source and total-hit tracking, no scroll). -/
def fetchCallBody (q : J) (size : Int) (sort : List J) : J :=
  ElasticQuery.to_dict
    ⟨"app-logs*", q, clamp_value size 1 10000, max 0 0, some sort, none,
      J.bool true, none, J.bool true⟩

/-- A backend stub returning zero hits for every search. -/
def zeroHitTransport : Transport := fun _ _ _ =>
  Except.ok (J.obj
    [("took", J.int 1), ("timed_out", J.bool false),
     ("hits", J.obj
       [("total", J.obj [("value", J.int 0), ("relation", J.str "eq")]),
        ("hits", J.arr [])])])

/-- A backend stub whose every call raises. -/
def failTransport : Transport := fun _ _ _ => Except.error ("boom")

/-- A second always-raising backend stub (distinct function, same behavior). -/
def failTransport2 : Transport := fun _ _ _ => Except.error ("boom")

/-- A `fromisoformat` stub that always fails to parse. -/
def noParse : String → Option Int := fun _ => none

/-- The transport invocation `fetch_user_logs` makes for its error-log
branch (after input clamping and time resolution). -/
def fetchErrCall (τ : Transport) (parseIso : String → Option Int)
    (uid tf lim : Int) (stO : Option String) (now : Int) : Except String J :=
  let se := resolveTimes parseIso stO (max 1 (min tf 1440)) now
  τ ("app-logs*")
    (fetchCallBody (error_query uid se.1 se.2) (max 1 (min lim 1000)) tsSortDesc)
    none

/-- The transport invocation `fetch_user_logs` makes for its slow-request
branch. -/
def fetchSlowCall (τ : Transport) (parseIso : String → Option Int)
    (uid tf : Int) (thr : Rat) (lim : Int) (stO : Option String) (now : Int) :
    Except String J :=
  let se := resolveTimes parseIso stO (max 1 (min tf 1440)) now
  τ ("app-logs*")
    (fetchCallBody (slow_query uid se.1 se.2 (max (1 / 10 : Rat) thr))
      (max 1 (min lim 1000)) requestTimeSortDesc)
    none

/-- The transport invocation `fetch_user_logs` makes for its most-recent
branch (identity filter only, size 1). -/
def fetchRecentCall (τ : Transport) (uid : Int) : Except String J :=
  τ ("app-logs*") (fetchCallBody (user_query uid) 1 tsSortDesc) none

/-- A concrete process environment carrying a non-empty pattern override
for app_logs, used for concrete instantiations. -/
def envVarsC1 : EnvVars :=
  fun k => if k = "ELASTIC_APP_LOGS_PATTERN" then some ("env-pattern-*") else none

/-- Empty process environment, used for concrete evaluations. -/
def noEnv : EnvVars := fun _ => none

/-! ## Registry lemmas and claims C1, C2, C5, C6 -/

/-- When the registry lookup fails, `get_index_config` raises. -/
lemma get_index_config_err (envVars : EnvVars) (env ty : String) (o : Option String)
    (h : registryFind env ty = none) :
    ∃ e, get_index_config envVars env ty o = Except.error e := by
  unfold registryFind at h
  unfold get_index_config
  cases hl : INDEX_REGISTRY.lookup env with
  | none =>
    simp only [hl]
    exact ⟨_, rfl⟩
  | some ec =>
    simp only [hl] at h ⊢
    by_cases he : ec.isEmpty
    · simp only [he, if_true]
      exact ⟨_, rfl⟩
    · simp only [if_neg he] at h ⊢
      simp only [h]
      exact ⟨_, rfl⟩

/-- When the registry lookup succeeds, `get_index_config` returns a config
that agrees with the stored one on everything except possibly `pattern`. -/
lemma get_index_config_ok (envVars : EnvVars) (env ty : String) (o : Option String)
    (cfg : IndexConfigData) (h : registryFind env ty = some cfg) :
    ∃ c, get_index_config envVars env ty o = Except.ok c ∧
      c.fields = cfg.fields ∧ c.mappings = cfg.mappings ∧
      c.default_size = cfg.default_size ∧ c.max_size = cfg.max_size ∧
      c.timeout_ms = cfg.timeout_ms := by
  unfold registryFind at h
  unfold get_index_config
  cases hl : INDEX_REGISTRY.lookup env with
  | none =>
    simp only [hl] at h
    exact Option.noConfusion h
  | some ec =>
    simp only [hl] at h ⊢
    by_cases he : ec.isEmpty
    · simp [he] at h
    · simp only [if_neg he] at h ⊢
      simp only [h]
      rcases o with _ | p <;>
        rcases hv : envVars ("ELASTIC_" ++ pyUpper ty ++ "_PATTERN") with _ | q <;>
        simp only [hv] <;>
        first
          | exact ⟨_, rfl, rfl, rfl, rfl, rfl, rfl⟩
          | (split_ifs <;> exact ⟨_, rfl, rfl, rfl, rfl, rfl, rfl⟩)

/-- C1 (counterexample): with registry entry ("production","app_logs"), an
explicit override "explicit-*" and a non-empty environment-variable override
"env-pattern-*", the returned pattern is the environment-variable one, not
the explicit one as the claim states. -/
theorem C1_counterexample :
    (get_index_config envVarsC1 ("production") ("app_logs")
        (some ("explicit-*"))).toOption.map IndexConfigData.pattern =
      some ("env-pattern-*") ∧
    ("env-pattern-*" : String) ≠ "explicit-*" :=
  ⟨rfl, by decide⟩

/-- C1 (amended): the actual precedence is environment-variable override >
explicit caller-supplied override > registry default: when both a non-empty
explicit override and a non-empty environment-variable override are supplied
for a registered (environment, index_type), the returned config is the
stored one with its pattern replaced by the environment-variable override. -/
theorem C1_env_override_beats_explicit (envVars : EnvVars) (env ty : String)
    (cfg : IndexConfigData) (p q : String) (hreg : registryFind env ty = some cfg)
    (hp : p ≠ "") (hq : q ≠ "")
    (henv : envVars ("ELASTIC_" ++ pyUpper ty ++ "_PATTERN") = some q) :
    get_index_config envVars env ty (some p) = Except.ok { cfg with pattern := q } := by
  unfold registryFind at hreg
  unfold get_index_config
  cases hl : INDEX_REGISTRY.lookup env with
  | none =>
    simp only [hl] at hreg
    exact Option.noConfusion hreg
  | some ec =>
    simp only [hl] at hreg ⊢
    by_cases he : ec.isEmpty
    · simp [he] at hreg
    · simp only [if_neg he] at hreg ⊢
      simp only [hreg, henv, if_neg hp, if_neg hq]

/-- C1 (witness for the amended theorem at a concrete input). -/
theorem C1_env_override_beats_explicit_witness :
    registryFind ("production") ("app_logs") = some productionAppLogs ∧
    get_index_config envVarsC1 ("production") ("app_logs") (some ("explicit-*")) =
      Except.ok { productionAppLogs with pattern := "env-pattern-*" } :=
  ⟨rfl, C1_env_override_beats_explicit envVarsC1 ("production") ("app_logs")
    productionAppLogs ("explicit-*") ("env-pattern-*") rfl (by decide) (by decide) rfl⟩

/-- C2 (counterexample): `get_level_mapping("default","app_logs","ERROR")`
returns the fallback `["ERROR"]`, not the configured five-element list,
because "default" is not an environment key of `INDEX_REGISTRY`. -/
theorem C2_counterexample :
    get_level_mapping noEnv ("default") ("app_logs") ("ERROR") = ["ERROR"] ∧
    ["ERROR"] ≠ ["error", "ERROR", "E", "err", "ERR"] :=
  ⟨rfl, by decide⟩

/-- C2 (amended): because "default" is not a registry environment,
`get_level_mapping("default","app_logs","ERROR")` degrades to `["ERROR"]`;
for the registry environment "production" the call returns exactly
`["error","ERROR","E","err","ERR"]` in configured order. -/
theorem C2_level_mapping_resolved (envVars : EnvVars) :
    get_level_mapping envVars ("default") ("app_logs") ("ERROR") = ["ERROR"] ∧
    get_level_mapping envVars ("production") ("app_logs") ("ERROR") =
      ["error", "ERROR", "E", "err", "ERR"] := by
  constructor
  · rfl
  · obtain ⟨c, hc, -, hm, -⟩ :=
      get_index_config_ok envVars ("production") ("app_logs") none
        productionAppLogs rfl
    unfold get_level_mapping
    simp only [hc, hm]
    rfl

/-- C5: for every integer size s and bound max ≥ 1, `clamp_value s 1 max`
returns s inside the range, 1 below it, max above it, is idempotent, and
`validate_size` is exactly this clamp (sizes are clamped, never rejected). -/
theorem C5_clamp_spec (s mx : Int) (hmx : 1 ≤ mx) :
    (1 ≤ s → s ≤ mx → clamp_value s 1 mx = s) ∧
    (s < 1 → clamp_value s 1 mx = 1) ∧
    (mx < s → clamp_value s 1 mx = mx) ∧
    clamp_value (clamp_value s 1 mx) 1 mx = clamp_value s 1 mx ∧
    validate_size s mx = clamp_value s 1 mx := by
  refine ⟨?_, ?_, ?_, ?_, rfl⟩ <;>
    · simp only [clamp_value, max_def, min_def]
      split_ifs <;> omega

/-- C5 (witness at s = 5, max = 10). -/
theorem C5_clamp_spec_witness :
    (1 : Int) ≤ 10 ∧
    ((1 ≤ (5 : Int) → (5 : Int) ≤ 10 → clamp_value 5 1 10 = 5) ∧
     ((5 : Int) < 1 → clamp_value 5 1 10 = 1) ∧
     ((10 : Int) < 5 → clamp_value 5 1 10 = 10) ∧
     clamp_value (clamp_value 5 1 10) 1 10 = clamp_value 5 1 10 ∧
     validate_size 5 10 = clamp_value 5 1 10) :=
  ⟨by decide, C5_clamp_spec 5 10 (by decide)⟩

/-- C6: `get_field_mapping` is total and returns `none` exactly when the
logical field is unmapped (unknown environment or index type included), and
`get_level_mapping` is total and returns `[level]` whenever the level token
is unmapped or the configuration carries no level value map. -/
theorem C6_mapping_fallbacks (envVars : EnvVars) (env ty f lvl : String) :
    (get_field_mapping envVars env ty f = none ↔
      (match registryFind env ty with
       | none => True
       | some cfg => cfg.fields.lookup f = none)) ∧
    ((match registryFind env ty with
      | none => True
      | some cfg =>
        (cfg.mappings.lookup ("level")).bind (fun m => m.lookup lvl) = none) →
      get_level_mapping envVars env ty lvl = [lvl]) := by
  cases hr : registryFind env ty with
  | none =>
    obtain ⟨e, he⟩ := get_index_config_err envVars env ty none hr
    unfold get_field_mapping get_level_mapping
    rw [he]
    simp
  | some cfg =>
    obtain ⟨c, hc, hf, hm, -⟩ := get_index_config_ok envVars env ty none cfg hr
    unfold get_field_mapping get_level_mapping
    simp only [hc, hf, hm]
    refine ⟨by simp, fun h => ?_⟩
    cases hlv : cfg.mappings.lookup ("level") with
    | none => exact rfl
    | some m =>
      rw [hlv] at h
      have h2 : List.lookup lvl m = none := h
      show (List.lookup lvl m).getD [lvl] = [lvl]
      rw [h2]
      rfl

/-- C6 (witness: unknown environment, unmapped field, unmapped level). -/
theorem C6_mapping_fallbacks_witness :
    (get_field_mapping noEnv ("production") ("app_logs") ("no_such_field") = none ↔
      (match registryFind ("production") ("app_logs") with
       | none => True
       | some cfg => cfg.fields.lookup ("no_such_field") = none)) ∧
    get_level_mapping noEnv ("production") ("app_logs") ("TRACE") = ["TRACE"] :=
  ⟨(C6_mapping_fallbacks noEnv ("production") ("app_logs") ("no_such_field")
      ("TRACE")).1,
   (C6_mapping_fallbacks noEnv ("production") ("app_logs") ("no_such_field")
      ("TRACE")).2 rfl⟩

lemma digitChar_mem (d : Nat) :
    digitChar d ∈ ['0', '1', '2', '3', '4', '5', '6', '7', '8', '9'] := by
  unfold digitChar
  split_ifs <;> decide

lemma natStrAux_mem (fuel : Nat) :
    ∀ n c, c ∈ natStrAux fuel n →
      c ∈ ['0', '1', '2', '3', '4', '5', '6', '7', '8', '9'] := by
  induction fuel with
  | zero => intro n c hc; simp [natStrAux] at hc
  | succ f ih =>
    intro n c hc
    unfold natStrAux at hc
    by_cases hn : n < 10
    · simp only [hn, if_true, List.mem_singleton] at hc
      exact hc ▸ digitChar_mem n
    · simp only [hn, if_false, List.mem_append, List.mem_singleton] at hc
      rcases hc with hc | hc
      · exact ih _ _ hc
      · exact hc ▸ digitChar_mem (n % 10)

lemma padChars_mem (w n : Nat) :
    ∀ c ∈ padChars w n, c ∈ ['0', '1', '2', '3', '4', '5', '6', '7', '8', '9'] := by
  intro c hc
  unfold padChars at hc
  rcases List.mem_append.1 hc with hc | hc
  · rw [List.eq_of_mem_replicate hc]
    decide
  · exact natStrAux_mem _ _ _ hc

lemma isoChars_mem (t : Nat) : ∀ c ∈ isoChars t, c ∈ isoAlphabet := by
  intro c hc
  have digitSub :
      ∀ x ∈ ['0', '1', '2', '3', '4', '5', '6', '7', '8', '9'], x ∈ isoAlphabet := by
    decide
  unfold isoChars at hc
  by_cases hm : t % 1000000 = 0
  · simp only [hm, if_true, List.append_nil, List.mem_append, List.mem_cons,
      List.not_mem_nil, or_false, or_assoc] at hc
    rcases hc with hc | hc | hc | hc | hc | hc | hc | hc | hc | hc | hc <;>
      first
        | exact digitSub _ (padChars_mem _ _ _ hc)
        | (rw [hc]; decide)
  · simp only [hm, if_false, List.mem_append, List.mem_cons,
      List.not_mem_nil, or_false, or_assoc] at hc
    rcases hc with hc | hc | hc | hc | hc | hc | hc | hc | hc | hc | hc | hc | hc <;>
      first
        | exact digitSub _ (padChars_mem _ _ _ hc)
        | (rw [hc]; decide)

/-- A naive isoformat string never carries a UTC-offset marker. -/
lemma isoformat_no_offset (t : Int) : hasOffsetMarker (isoformat t) = false := by
  unfold hasOffsetMarker isoformat
  rw [List.any_eq_false]
  intro c hc
  have hmem : c ∈ isoAlphabet := isoChars_mem _ _ hc
  have hall : ∀ x ∈ isoAlphabet, ¬((x = '+' || x = 'Z') = true) := by decide
  exact hall c hmem

/-- C3 (counterexample): at a concrete clock reading, the bounds emitted by
`build_time_range_query(field, minutes_ago=60)` are serialized without any
UTC-offset marker (naive `utcnow().isoformat()`), contradicting the claim
that both timestamps carry an explicit UTC offset. -/
theorem C3_counterexample :
    build_time_range_query ("@timestamp") none none (some 60) 1761300000000000 =
      J.obj [("range", J.obj [("@timestamp", J.obj
        [("gte", J.str ("2025-10-24T09:00:00")),
         ("lte", J.str ("2025-10-24T10:00:00"))])])] ∧
    hasOffsetMarker ("2025-10-24T09:00:00") = false ∧
    hasOffsetMarker ("2025-10-24T10:00:00") = false :=
  ⟨rfl, by decide, by decide⟩

/-- C3 (amended): for every field and positive minutes_ago m, the range
filter's end bound is the current time and its start bound exactly m minutes
earlier (start < end, span exactly m minutes), gte/lte keys are emitted only
for present bounds, and both timestamps are serialized in ISO-8601 WITHOUT a
UTC offset (naive `datetime.utcnow()` serialization). -/
theorem C3_time_range_span (field : String) (m now : Int) (hm : 1 ≤ m) :
    build_time_range_query field none none (some m) now =
      J.obj [("range", J.obj [(field, J.obj
        [("gte", J.str (isoformat (now - m * minuteMicros))),
         ("lte", J.str (isoformat now))])])] ∧
    now - m * minuteMicros < now ∧
    now - (now - m * minuteMicros) = m * minuteMicros ∧
    hasOffsetMarker (isoformat (now - m * minuteMicros)) = false ∧
    hasOffsetMarker (isoformat now) = false ∧
    (∀ s e : Option Int,
      rangeBoundKeys (build_time_range_query field s e none now) field =
        (match s with | some _ => ["gte"] | none => []) ++
        (match e with | some _ => ["lte"] | none => [])) := by
  refine ⟨rfl, ?_, by omega, isoformat_no_offset _, isoformat_no_offset _, ?_⟩
  · have hpos : (0 : Int) < m * minuteMicros := by
      unfold minuteMicros
      omega
    omega
  · intro s e
    rcases s with _ | s <;> rcases e with _ | e <;>
      simp [rangeBoundKeys, jGet, build_time_range_query, List.lookup]

/-- C3 (witness for the amended theorem at field "@timestamp", m = 60). -/
theorem C3_time_range_span_witness :
    (1 : Int) ≤ 60 ∧
    (1761300000000000 : Int) - 60 * minuteMicros < 1761300000000000 ∧
    rangeBoundKeys
      (build_time_range_query ("@timestamp") (some 0) none none 1761300000000000)
      ("@timestamp") = ["gte"] :=
  ⟨by decide,
   (C3_time_range_span ("@timestamp") 60 1761300000000000 (by decide)).2.1,
   by simpa using
     (C3_time_range_span ("@timestamp") 60 1761300000000000
       (by decide)).2.2.2.2.2 (some 0) none⟩

set_option maxHeartbeats 2000000 in
/-- C7: a bool composition emits a clause key iff the corresponding fragment
list is supplied non-empty, never contains an empty clause array,
emits minimum_should_match iff it is explicitly provided, and
`bool_compose(must=[f1,f2])` is exactly a bool structure whose only clause
is `must: [f1, f2]`. -/
theorem C7_bool_compose (must must_not should filter : Option (List J))
    (msm : Option (Int ⊕ String)) (f1 f2 : J) :
    (((boolClauses (build_bool_query must must_not should filter msm)).lookup
        ("must")).isSome = true ↔ must.getD [] ≠ []) ∧
    (((boolClauses (build_bool_query must must_not should filter msm)).lookup
        ("must_not")).isSome = true ↔ must_not.getD [] ≠ []) ∧
    (((boolClauses (build_bool_query must must_not should filter msm)).lookup
        ("should")).isSome = true ↔ should.getD [] ≠ []) ∧
    (((boolClauses (build_bool_query must must_not should filter msm)).lookup
        ("filter")).isSome = true ↔ filter.getD [] ≠ []) ∧
    (((boolClauses (build_bool_query must must_not should filter msm)).lookup
        ("minimum_should_match")).isSome = true ↔ msm.isSome = true) ∧
    J.arr [] ∉ (boolClauses (build_bool_query must must_not should filter msm)).map
      Prod.snd ∧
    build_bool_query (some [f1, f2]) none none none none =
      J.obj [("bool", J.obj [("must", J.arr [f1, f2])])] := by
  rcases must with _ | (_ | ⟨a1, t1⟩) <;>
    rcases must_not with _ | (_ | ⟨a2, t2⟩) <;>
    rcases should with _ | (_ | ⟨a3, t3⟩) <;>
    rcases filter with _ | (_ | ⟨a4, t4⟩) <;>
    rcases msm with _ | (n | s) <;>
    simp [build_bool_query, boolClauses, List.lookup, msmToJ]

lemma singleton_isPrefixOf (c : Char) (l : List Char) :
    List.isPrefixOf [c] l = true ↔ l.head? = some c := by
  cases l with
  | nil => simp [List.isPrefixOf]
  | cons a t =>
    have h0 : List.isPrefixOf [c] (a :: t) = (c == a) := by
      show ((c == a) && List.isPrefixOf [] t) = (c == a)
      rw [show List.isPrefixOf [] t = true by simp [List.isPrefixOf], Bool.and_true]
    rw [h0, beq_iff_eq]
    simp [eq_comm]

lemma pyStartswith_underscore (p : String) :
    pyStartswith p ("_") = true ↔ p.data.head? = some '_' := by
  unfold pyStartswith
  have hdata : ("_" : String).data = ['_'] := by decide
  rw [hdata]
  exact singleton_isPrefixOf '_' p.data

lemma allowedPatternChar_iff (c : Char) :
    allowedPatternChar c = true ↔
      (c.isAlphanum = true ∨ c = '-' ∨ c = '_' ∨ c = '.' ∨ c = '*') := by
  simp [allowedPatternChar, Bool.or_eq_true, decide_eq_true_eq, or_assoc]

lemma validate_ok_iff (p : String) :
    validate_index_pattern p = Except.ok () ↔ ¬ specRejected p := by
  by_cases h1 : p = ""
  · subst h1
    constructor
    · intro h
      exact Except.noConfusion h
    · intro h
      exact absurd (show specRejected ("") from Or.inl rfl) h
  · unfold validate_index_pattern specRejected
    simp only [h1, if_false]
    by_cases h2 : pyStartswith p ("_") = true
    · simp only [h2, if_true]
      constructor
      · intro h; exact Except.noConfusion h
      · intro h
        exact absurd (Or.inr (Or.inl ((pyStartswith_underscore p).1 h2))) h
    · rw [Bool.not_eq_true] at h2
      simp only [h2, Bool.false_eq_true, if_false]
      by_cases h3 : (p.data.filter fun c => !allowedPatternChar c) = []
      · simp only [h3, List.isEmpty_nil, if_true]
        have hall : ∀ c ∈ p.data, allowedPatternChar c = true := by
          intro c hc
          have := List.filter_eq_nil_iff.1 h3 c hc
          simpa using this
        constructor
        · intro _ hbad
          rcases hbad with hbad | hbad | ⟨c, hc, hbad⟩
          · exact hbad.elim
          · rw [← pyStartswith_underscore] at hbad
            rw [h2] at hbad
            exact Bool.noConfusion hbad
          · exact hbad ((allowedPatternChar_iff c).1 (hall c hc))
        · intro _
          first
            | rfl
            | trivial
      · have hne : ((p.data.filter fun c => !allowedPatternChar c).isEmpty) = false := by
          cases hfe : p.data.filter fun c => !allowedPatternChar c with
          | nil => exact absurd hfe h3
          | cons a l => rfl
        simp only [hne, Bool.false_eq_true, if_false]
        constructor
        · intro h; exact Except.noConfusion h
        · intro h
          exfalso
          apply h
          rcases List.exists_mem_of_ne_nil _ h3 with ⟨c, hc⟩
          rcases List.mem_filter.1 hc with ⟨hcd, hbad⟩
          refine Or.inr (Or.inr ⟨c, hcd, fun hok => ?_⟩)
          rw [← allowedPatternChar_iff] at hok
          rw [hok] at hbad
          exact Bool.noConfusion hbad

/-- C4: an index pattern is rejected by the search and aggregation
primitives iff it is empty, begins with an underscore, or contains a
character outside the allowed set, and such a rejection happens with zero
transport invocations (a valid pattern leads to exactly one); the raised
error before any transport call is exactly the validator's `ValueError`. -/
theorem C4_pattern_validation (p : String) (query aggs : J) (size from_ : Int)
    (sort : Option (List J)) (fields : Option (List String)) (source : J)
    (highlight : Option J) (tth : J) (scroll : Option String) (τ : Transport) :
    (validate_index_pattern p = Except.ok () ↔ ¬ specRejected p) ∧
    ((∃ e, search_elastic_logs τ p query size from_ sort fields source highlight
        tth scroll = (Except.error e, 0)) ↔ specRejected p) ∧
    ((∃ e, aggregate_elastic_data τ p query aggs size = (Except.error e, 0)) ↔
      specRejected p) := by
  refine ⟨validate_ok_iff p, ?_, ?_⟩
  · unfold search_elastic_logs
    cases hv : validate_index_pattern p with
    | error e =>
      simp only [hv]
      constructor
      · intro _
        by_contra hnr
        rw [← validate_ok_iff] at hnr
        rw [hv] at hnr
        exact Except.noConfusion hnr
      · intro _
        exact ⟨e, rfl⟩
    | ok u =>
      have hnr : ¬ specRejected p := by
        rw [← validate_ok_iff]
        cases u
        exact hv
      simp only [hv]
      constructor
      · rintro ⟨e, he⟩
        split at he <;> exact absurd (congrArg Prod.snd he) (by simp)
      · intro hr
        exact absurd hr hnr
  · unfold aggregate_elastic_data
    cases hv : validate_index_pattern p with
    | error e =>
      simp only [hv]
      constructor
      · intro _
        by_contra hnr
        rw [← validate_ok_iff] at hnr
        rw [hv] at hnr
        exact Except.noConfusion hnr
      · intro _
        exact ⟨e, rfl⟩
    | ok u =>
      have hnr : ¬ specRejected p := by
        rw [← validate_ok_iff]
        cases u
        exact hv
      simp only [hv]
      constructor
      · rintro ⟨e, he⟩
        split at he <;> exact absurd (congrArg Prod.snd he) (by simp)
      · intro hr
        exact absurd hr hnr

/-- C8: a `get_index_config` lookup never mutates the registry's stored
configuration: for every heap whose registry addresses are all allocated
(below `nextAddr`), after any call - overrides included - every registry
dict (its pattern, fields, mappings, sizes and timeout) reads back
unchanged; overrides touch only the freshly allocated copy. -/
theorem C8_lookup_preserves_registry (h : Heap) (envVars : EnvVars)
    (env ty : String) (o : Option String) (e2 t2 : String) (addr : Nat)
    (_haddr : (registryAddrs.lookup e2).bind (fun m => m.lookup t2) = some addr)
    (hfresh : addr < h.nextAddr) :
    ((get_index_config_heap h envVars env ty o).2).store addr = h.store addr := by
  have hne : addr ≠ h.nextAddr := Nat.ne_of_lt hfresh
  unfold get_index_config_heap
  cases hl : registryAddrs.lookup env with
  | none => rfl
  | some ec =>
    by_cases he : ec.isEmpty
    · simp [he]
    · simp only [if_neg he]
      cases hi : ec.lookup ty with
      | none => rfl
      | some a0 =>
        rcases o with _ | p <;>
          rcases hv : envVars ("ELASTIC_" ++ pyUpper ty ++ "_PATTERN") with _ | q <;>
          simp only [hv] <;>
          first
            | (split_ifs <;> simp [heapWrite, hne])
            | simp [heapWrite, hne]

/-- C8 (witness: a lookup with both overrides leaves the production
app_logs registry dict unchanged in the initial heap). -/
theorem C8_lookup_preserves_registry_witness :
    (registryAddrs.lookup ("production")).bind
      (fun m => m.lookup ("app_logs")) = some 0 ∧
    0 < initHeap.nextAddr ∧
    ((get_index_config_heap initHeap envVarsC1 ("production") ("app_logs")
        (some ("explicit-*"))).2).store 0 = initHeap.store 0 :=
  ⟨rfl, by decide,
   C8_lookup_preserves_registry initHeap envVarsC1 ("production") ("app_logs")
     (some ("explicit-*")) ("production") ("app_logs") 0 rfl (by decide)⟩


lemma branchHits_error (τ : Transport) (q : J) (size : Int) (sort : List J)
    (msg : String)
    (h : τ ("app-logs*") (fetchCallBody q size sort) none = Except.error msg) :
    branchHits τ q size sort = [] := by
  unfold branchHits search_elastic_logs
  rw [show validate_index_pattern ("app-logs*") = Except.ok () from rfl]
  unfold fetchCallBody at h
  simp only [h]

lemma branchHits_congr (τ τ2 : Transport) (q : J) (size : Int) (sort : List J)
    (h : τ ("app-logs*") (fetchCallBody q size sort) none =
         τ2 ("app-logs*") (fetchCallBody q size sort) none) :
    branchHits τ q size sort = branchHits τ2 q size sort := by
  unfold branchHits search_elastic_logs
  rw [show validate_index_pattern ("app-logs*") = Except.ok () from rfl]
  unfold fetchCallBody at h
  simp only [h]

/-- C9: the three searches of `fetch_user_logs` are independent: a backend
failure in one branch is caught locally and that branch degrades to an
empty result, while each branch's output depends only on its own transport
call; against a backend returning zero hits for all branches at user 41343
and a 60-minute window the result is `error_logs=[]`, `slow_requests=[]`,
`most_recent_log=none`, with exactly the no-activity insight. -/
theorem C9_user_flow_independent_branches (τ τ2 : Transport)
    (parseIso : String → Option Int) (uid tf : Int) (thr : Rat) (lim : Int)
    (envO stO : Option String) (now : Int) (msg : String) :
    (fetchErrCall τ parseIso uid tf lim stO now = Except.error msg →
      (fetch_user_logs τ parseIso uid tf thr lim envO stO now).error_logs = []) ∧
    (fetchSlowCall τ parseIso uid tf thr lim stO now = Except.error msg →
      (fetch_user_logs τ parseIso uid tf thr lim envO stO now).slow_requests = []) ∧
    (fetchRecentCall τ uid = Except.error msg →
      (fetch_user_logs τ parseIso uid tf thr lim envO stO now).most_recent_log =
        none) ∧
    (fetchErrCall τ parseIso uid tf lim stO now =
        fetchErrCall τ2 parseIso uid tf lim stO now →
      (fetch_user_logs τ parseIso uid tf thr lim envO stO now).error_logs =
        (fetch_user_logs τ2 parseIso uid tf thr lim envO stO now).error_logs) ∧
    (fetchSlowCall τ parseIso uid tf thr lim stO now =
        fetchSlowCall τ2 parseIso uid tf thr lim stO now →
      (fetch_user_logs τ parseIso uid tf thr lim envO stO now).slow_requests =
        (fetch_user_logs τ2 parseIso uid tf thr lim envO stO now).slow_requests) ∧
    (fetchRecentCall τ uid = fetchRecentCall τ2 uid →
      (fetch_user_logs τ parseIso uid tf thr lim envO stO now).most_recent_log =
        (fetch_user_logs τ2 parseIso uid tf thr lim envO stO now).most_recent_log) ∧
    (fetch_user_logs zeroHitTransport parseIso 41343 60 2 100 none none
      now).error_logs = [] ∧
    (fetch_user_logs zeroHitTransport parseIso 41343 60 2 100 none none
      now).slow_requests = [] ∧
    (fetch_user_logs zeroHitTransport parseIso 41343 60 2 100 none none
      now).most_recent_log = none ∧
    jGet (fetch_user_logs zeroHitTransport parseIso 41343 60 2 100 none none
      now).summary ("insights") =
      some (J.arr
        [J.str ("❌ No logs found for this user - verify user ID or field mapping")]) := by
  refine ⟨?_, ?_, ?_, ?_, ?_, ?_, rfl, rfl, rfl, rfl⟩
  · intro h
    show (branchHits τ
        (error_query uid (resolveTimes parseIso stO (max 1 (min tf 1440)) now).1
          (resolveTimes parseIso stO (max 1 (min tf 1440)) now).2)
        (max 1 (min lim 1000)) tsSortDesc).map format_log = []
    rw [branchHits_error τ _ _ _ msg h]
    rfl
  · intro h
    show (branchHits τ
        (slow_query uid (resolveTimes parseIso stO (max 1 (min tf 1440)) now).1
          (resolveTimes parseIso stO (max 1 (min tf 1440)) now).2
          (max (1 / 10 : Rat) thr))
        (max 1 (min lim 1000)) requestTimeSortDesc).map format_log = []
    rw [branchHits_error τ _ _ _ msg h]
    rfl
  · intro h
    show ((branchHits τ (user_query uid) 1 tsSortDesc).map format_log).head? = none
    rw [branchHits_error τ _ _ _ msg h]
    rfl
  · intro h
    show (branchHits τ
        (error_query uid (resolveTimes parseIso stO (max 1 (min tf 1440)) now).1
          (resolveTimes parseIso stO (max 1 (min tf 1440)) now).2)
        (max 1 (min lim 1000)) tsSortDesc).map format_log =
      (branchHits τ2
        (error_query uid (resolveTimes parseIso stO (max 1 (min tf 1440)) now).1
          (resolveTimes parseIso stO (max 1 (min tf 1440)) now).2)
        (max 1 (min lim 1000)) tsSortDesc).map format_log
    rw [branchHits_congr τ τ2 _ _ _ h]
  · intro h
    show (branchHits τ
        (slow_query uid (resolveTimes parseIso stO (max 1 (min tf 1440)) now).1
          (resolveTimes parseIso stO (max 1 (min tf 1440)) now).2
          (max (1 / 10 : Rat) thr))
        (max 1 (min lim 1000)) requestTimeSortDesc).map format_log =
      (branchHits τ2
        (slow_query uid (resolveTimes parseIso stO (max 1 (min tf 1440)) now).1
          (resolveTimes parseIso stO (max 1 (min tf 1440)) now).2
          (max (1 / 10 : Rat) thr))
        (max 1 (min lim 1000)) requestTimeSortDesc).map format_log
    rw [branchHits_congr τ τ2 _ _ _ h]
  · intro h
    show ((branchHits τ (user_query uid) 1 tsSortDesc).map format_log).head? =
      ((branchHits τ2 (user_query uid) 1 tsSortDesc).map format_log).head?
    rw [branchHits_congr τ τ2 _ _ _ h]

/-- C9 (witness: an always-raising backend degrades every branch to the
empty result, and agreeing transports yield agreeing branches). -/
theorem C9_user_flow_independent_branches_witness :
    (fetch_user_logs failTransport noParse 7 60 2 100 none none 0).error_logs = [] ∧
    (fetch_user_logs failTransport noParse 7 60 2 100 none none 0).slow_requests = [] ∧
    (fetch_user_logs failTransport noParse 7 60 2 100 none none
      0).most_recent_log = none ∧
    (fetch_user_logs failTransport noParse 7 60 2 100 none none 0).error_logs =
      (fetch_user_logs failTransport2 noParse 7 60 2 100 none none 0).error_logs ∧
    (fetch_user_logs zeroHitTransport noParse 41343 60 2 100 none none
      0).most_recent_log = none :=
  ⟨(C9_user_flow_independent_branches failTransport failTransport2 noParse 7 60 2
      100 none none 0 ("boom")).1 rfl,
   (C9_user_flow_independent_branches failTransport failTransport2 noParse 7 60 2
      100 none none 0 ("boom")).2.1 rfl,
   (C9_user_flow_independent_branches failTransport failTransport2 noParse 7 60 2
      100 none none 0 ("boom")).2.2.1 rfl,
   (C9_user_flow_independent_branches failTransport failTransport2 noParse 7 60 2
      100 none none 0 ("boom")).2.2.2.1 rfl,
   by
    have h := (C9_user_flow_independent_branches zeroHitTransport zeroHitTransport
      noParse 41343 60 2 100 none none 0 ("boom")).2.2.2.2.2.2.2.2.1
    exact h⟩

/-- C10 (implicit): with the environment parameter omitted, the domain
wrappers resolve the environment to "default", which is not a registry key,
so `get_index_config` raises `KeyError: Unknown environment: default` and
the wrapper fails before issuing any search (zero transport invocations). -/
theorem C10_default_environment_raises (envVars : EnvVars) (τ : Transport)
    (parse : J → Except String AppLog) (pod svc lvl msg : Option String)
    (tf lim now : Int) :
    get_current_environment = "default" ∧
    INDEX_REGISTRY.lookup ("default") = none ∧
    get_index_config envVars ("default") ("app_logs") none =
      Except.error ("Unknown environment: default") ∧
    search_app_logs envVars τ parse pod svc lvl msg tf lim none now =
      (Except.error ("Unknown environment: default"), 0) ∧
    list_active_pods envVars τ tf none now =
      (Except.error ("Unknown environment: default"), 0) :=
  ⟨rfl, rfl, rfl, rfl, rfl⟩

end Elastic
